import Mathlib

/-!
Verification development for the OSDU MCP Server core: the multi-cloud
authentication handler (`shared/auth_handler.py`) and the HTTP transport
client (`shared/osdu_client.py`).

The Python source is shallowly embedded: environment lookups become an
explicit environment record, the aiohttp request loop becomes a function
over an attempt-outcome oracle that also returns the trace of observable
events (token acquisition, request attempts, backoff sleeps), and Python
exception flow becomes `Except` / explicit result constructors.
-/

/-- Python truthiness of `os.environ.get(NAME)`: `None` and the empty
string are both falsy. -/
def envSet (v : Option String) : Bool :=
  match v with
  | none => false
  | some s => !s.isEmpty

/-- `AuthenticationMode` enum from `auth_handler.py`. -/
inductive AuthenticationMode
  | USER_TOKEN
  | AZURE
  | AWS
  | GCP
deriving DecidableEq, Repr

/-- The environment variables read by `_detect_authentication_mode`,
plus the outcome of the two ambient-discovery probes: `aws_auto_discovery`
is true iff `boto3.Session().get_credentials()` returns a truthy
credentials object without raising, and `gcp_auto_discovery` is true iff
`google.auth.default()` returns truthy credentials without raising. -/
structure Env where
  OSDU_MCP_USER_TOKEN : Option String
  AZURE_CLIENT_ID : Option String
  AZURE_TENANT_ID : Option String
  AWS_ACCESS_KEY_ID : Option String
  AWS_PROFILE : Option String
  GOOGLE_APPLICATION_CREDENTIALS : Option String
  aws_auto_discovery : Bool
  gcp_auto_discovery : Bool
deriving DecidableEq, Repr

/-- The no-credentials error message raised at priority 7 of
`_detect_authentication_mode`. -/
def noCredentialsMessage : String :=
  "No authentication credentials configured. Set up one of:\n\n" ++
  "  Manual Token (Highest Priority):\n" ++
  "    export OSDU_MCP_USER_TOKEN=your-bearer-token\n\n" ++
  "  Azure (Automatic):\n" ++
  "    az login\n" ++
  "    OR export AZURE_CLIENT_ID=... AZURE_TENANT_ID=...\n\n" ++
  "  AWS (Automatic):\n" ++
  "    aws sso login\n" ++
  "    OR export AWS_ACCESS_KEY_ID=... AWS_SECRET_ACCESS_KEY=...\n\n" ++
  "  GCP (Automatic):\n" ++
  "    gcloud auth application-default login\n" ++
  "    OR export GOOGLE_APPLICATION_CREDENTIALS=/path/to/key.json\n\n" ++
  "  See: https://github.com/danielscholl-osdu/osdu-mcp-server#authentication"

/-- `AuthHandler._detect_authentication_mode`: priority 1 user token,
2 Azure (client or tenant id), 3 AWS explicit (access key or profile),
4 GCP explicit (credentials file), 5 AWS ambient discovery, 6 GCP ambient
discovery, 7 `OSMCPAuthError`. -/
def detect_authentication_mode (e : Env) : Except String AuthenticationMode :=
  if envSet e.OSDU_MCP_USER_TOKEN then .ok .USER_TOKEN
  else if envSet e.AZURE_CLIENT_ID || envSet e.AZURE_TENANT_ID then .ok .AZURE
  else if envSet e.AWS_ACCESS_KEY_ID || envSet e.AWS_PROFILE then .ok .AWS
  else if envSet e.GOOGLE_APPLICATION_CREDENTIALS then .ok .GCP
  else if e.aws_auto_discovery then .ok .AWS
  else if e.gcp_auto_discovery then .ok .GCP
  else .error noCredentialsMessage

/-! ## Transport client (`osdu_client.py`) -/

/-- Python dict lookup on an insertion-ordered association list. -/
def dictGet : List (String × String) → String → Option String
  | [], _ => none
  | (k', v') :: rest, k => if k' = k then some v' else dictGet rest k

/-- Python dict assignment `d[k] = v`: replace in place when the key is
present, otherwise append at the end. -/
def dictSet : List (String × String) → String → String → List (String × String)
  | [], k, v => [(k, v)]
  | (k', v') :: rest, k, v =>
    if k' = k then (k, v) :: rest else (k', v') :: dictSet rest k v

/-- Header setup in `OsduClient._make_request` (lines 70-77): the caller
headers with `Authorization`, `data-partition-id` and `Content-Type`
assigned unconditionally, in that order. -/
def setupHeaders (callerHeaders : List (String × String))
    (token dataPartition : String) : List (String × String) :=
  dictSet
    (dictSet
      (dictSet callerHeaders "Authorization" ("Bearer " ++ token))
      "data-partition-id" dataPartition)
    "Content-Type" "application/json"

/-- What one `session.request` attempt does, as seen by the retry loop:
`clientError` is an `aiohttp.ClientError` (connection-level failure),
`response` is an HTTP response with status, body text and a flag telling
whether `response.json()` succeeds, `otherError` is any other exception
raised by the attempt. -/
inductive AttemptOutcome
  | clientError (msg : String)
  | response (status : Nat) (text : String) (isJson : Bool)
  | otherError (msg : String)
deriving DecidableEq, Repr

/-- Successful payload of `_make_request`: a parsed JSON body
(abstracted by its text), or the dict `{"response": text}` built for
bodies that fail JSON parsing. -/
inductive RespValue
  | json (body : String)
  | wrapped (text : String)
deriving DecidableEq, Repr

/-- The two error families `_make_request` raises: `OSMCPAPIError`
(message, optional status code) and `OSMCPConnectionError`. -/
inductive ReqError
  | apiError (message : String) (status : Option Nat)
  | connectionError (message : String)
deriving DecidableEq, Repr

/-- Observable events of one `_make_request` call: the single
`get_access_token()` call, each `session.request` attempt (carrying the
headers actually sent), and each backoff `asyncio.sleep`. -/
inductive Event
  | getToken
  | attempt (headers : List (String × String))
  | sleep (seconds : Nat)
deriving DecidableEq, Repr

/-- The `for attempt in range(max_retries)` loop of `_make_request`
(lines 83-113). `fuel` counts the remaining loop iterations (initially
`max_retries`); when the loop exits without an explicit return or raise,
the defensive fallback of line 113 fires. Within an iteration: a status
`>= 400` raises `OSMCPAPIError("Request failed: " ++ text, status)`
(re-raised unchanged by the generic handler, whose type-name check
matches `OSMCPAPIError`); a 2xx/3xx body is parsed as JSON or wrapped as
`{"response": text}`; an `aiohttp.ClientError` on the last attempt
raises `OSMCPConnectionError`, otherwise sleeps
`base_delay * 2 ^ attempt` and retries; any other exception raises
`OSMCPAPIError("Unexpected error: " ++ msg)` with no status. -/
def runAttempts (behavior : Nat → AttemptOutcome)
    (headers : List (String × String)) (maxRetries baseDelay : Nat) :
    Nat → Nat → Except ReqError RespValue × List Event
  | _, 0 =>
    (.error (.connectionError "Maximum retry attempts reached without success"), [])
  | attempt, fuel + 1 =>
    match behavior attempt with
    | .response status text isJson =>
      if status ≥ 400 then
        (.error (.apiError ("Request failed: " ++ text) (some status)),
         [Event.attempt headers])
      else if isJson then
        (.ok (.json text), [Event.attempt headers])
      else
        (.ok (.wrapped text), [Event.attempt headers])
    | .clientError msg =>
      if attempt = maxRetries - 1 then
        (.error (.connectionError ("Connection error: " ++ msg)),
         [Event.attempt headers])
      else
        let delay := baseDelay * 2 ^ attempt
        let rest := runAttempts behavior headers maxRetries baseDelay (attempt + 1) fuel
        (rest.1, Event.attempt headers :: Event.sleep delay :: rest.2)
    | .otherError msg =>
      (.error (.apiError ("Unexpected error: " ++ msg) none),
       [Event.attempt headers])

/-- `OsduClient._make_request`: the token is obtained once from the auth
handler, the three core headers are assigned over the caller's headers,
then the retry loop runs with `max_retries = 3`, `base_delay = 1`. -/
def make_request (behavior : Nat → AttemptOutcome) (token dataPartition : String)
    (callerHeaders : List (String × String)) :
    Except ReqError RespValue × List Event :=
  let headers := setupHeaders callerHeaders token dataPartition
  let r := runAttempts behavior headers 3 1 0 3
  (r.1, Event.getToken :: r.2)

/-- Durations of the sleep events of a trace, in order. -/
def sleepsOf : List Event → List Nat
  | [] => []
  | Event.sleep d :: rest => d :: sleepsOf rest
  | _ :: rest => sleepsOf rest

/-- Recognizer for attempt events. -/
def isAttempt : Event → Bool
  | Event.attempt _ => true
  | _ => false

/-- Recognizer for the token-acquisition event. -/
def isGetToken : Event → Bool
  | Event.getToken => true
  | _ => false

/-- Number of request attempts recorded in a trace. -/
def attemptCount (evs : List Event) : Nat := evs.countP isAttempt

/-- Number of token acquisitions recorded in a trace. -/
def getTokenCount (evs : List Event) : Nat := evs.countP isGetToken

/-! ## Authentication handler (`auth_handler.py`) -/

/-- `azure.core.credentials.AccessToken`: token string and POSIX expiry
timestamp (`expires_on`). Time is modelled in whole seconds. -/
structure AccessToken where
  token : String
  expires_on : Int
deriving DecidableEq, Repr

/-- `AuthHandler._is_azure_token_valid` (lines 594-606): the cached token
exists and now is strictly before its expiry minus the 5-minute buffer. -/
def is_azure_token_valid (cached : Option AccessToken) (now : Int) : Bool :=
  match cached with
  | none => false
  | some t => decide (now < t.expires_on - 300)

/-- Scope derivation of `_get_azure_token` (lines 407-412): the custom
scope when `OSDU_MCP_AUTH_SCOPE` is truthy, else `"{clientId}/.default"`. -/
def azureScope (clientId : String) (customScope : Option String) : String :=
  if envSet customScope then customScope.getD "" else clientId ++ "/.default"

/-- Character-list version of substring matching: does the second list
start with the first? -/
def leadsWith : List Char → List Char → Bool
  | [], _ => true
  | _ :: _, [] => false
  | a :: as, b :: bs => a = b && leadsWith as bs

/-- Does the haystack character list contain the needle as a contiguous
sublist? -/
def subSearch (needle : List Char) : List Char → Bool
  | [] => needle.isEmpty
  | c :: rest => leadsWith needle (c :: rest) || subSearch needle rest

/-- Python `needle in haystack` on strings. -/
def strContains (haystack needle : String) : Bool :=
  subSearch needle.data haystack.data

/-- Python `str.lower()`, restricted to ASCII as used by the matched
error messages. -/
def strLower (s : String) : String := ⟨s.data.map Char.toLower⟩

/-- Outcome of `self._azure_credential.get_token(scope)`: a token, an
`azure.core.exceptions.ClientAuthenticationError`, or any other
exception. -/
inductive FetchOutcome
  | success (tok : AccessToken)
  | clientAuthError (msg : String)
  | otherError (msg : String)
deriving DecidableEq, Repr

/-- The `except ClientAuthenticationError` branch of `_get_azure_token`
(lines 419-456): case-insensitive substring matching on the exception
message, mapped to user-facing `OSMCPAuthError` messages. -/
def translate_client_auth_error (msg : String) (hasClientSecret : Bool) : String :=
  let m := strLower msg
  if strContains m "az login" || strContains m "azurecli" then
    "Authentication failed. Please run \x27az login\x27 before using OSDU MCP Server"
  else if strContains m "expired" || strContains m "refresh token" then
    "Azure authentication token expired. Please run \x27az login\x27 to refresh"
  else if strContains m "invalid_scope" || strContains m "scope format is invalid" then
    "Invalid Azure client ID. Please verify your AZURE_CLIENT_ID is correct"
  else if strContains m "no accounts were found" ||
      strContains m "environment variables are not fully configured" then
    if hasClientSecret then
      "Service Principal authentication failed. Please check your AZURE_CLIENT_ID, " ++
      "AZURE_TENANT_ID, and AZURE_CLIENT_SECRET environment variables"
    else
      "No Azure credentials found. Please set up Service Principal credentials " ++
      "or run \x27az login\x27 for CLI authentication"
  else
    "Authentication failed. Please check your Azure credentials"

/-- The final `except Exception` branch of `_get_azure_token` (lines
457-467): a connection/timeout substring gives the network message,
anything else the generic configuration message. -/
def translate_generic_error (msg : String) : String :=
  let m := strLower msg
  if strContains m "connection" || strContains m "timeout" then
    "Failed to connect to Azure authentication service. Please check your network connection"
  else
    "Authentication configuration error. Please check your environment setup"

/-- The specific `OSMCPAuthError` message raised inside the try block of
`_get_azure_token` when `AZURE_CLIENT_ID` is not set (lines 402-405). -/
def missingClientIdMessage : String :=
  "AZURE_CLIENT_ID environment variable is required for Azure authentication"

/-- Cache-miss path of `_get_azure_token` (lines 400-417) together with
its exception handlers. The `OSMCPAuthError` raised for a missing
`AZURE_CLIENT_ID` is an `Exception` but not a
`ClientAuthenticationError`, so it is caught by the final
`except Exception` handler and replaced via `translate_generic_error`.
The result carries the returned token string, the new value of
`_azure_cached_token`, and the number of `get_token` fetches made. -/
def acquire_azure_token (clientId customScope : Option String)
    (hasClientSecret : Bool) (fetch : String → FetchOutcome) :
    Except String (String × Option AccessToken × Nat) :=
  if envSet clientId then
    let scope := azureScope (clientId.getD "") customScope
    match fetch scope with
    | .success t => .ok (t.token, some t, 1)
    | .clientAuthError m => .error (translate_client_auth_error m hasClientSecret)
    | .otherError m => .error (translate_generic_error m)
  else
    .error (translate_generic_error missingClientIdMessage)

/-- `AuthHandler._get_azure_token` (lines 386-467). When
`_is_azure_token_valid()` holds, the cached token (necessarily present)
is returned with no fetch; otherwise the cache-miss path runs. The
Python guard reads the cached token after the validity check; here the
match on the cache comes first, which is equivalent because the validity
check is false on an empty cache. -/
def get_azure_token (cached : Option AccessToken) (now : Int)
    (clientId customScope : Option String) (hasClientSecret : Bool)
    (fetch : String → FetchOutcome) :
    Except String (String × Option AccessToken × Nat) :=
  match cached with
  | some t =>
    if is_azure_token_valid (some t) now then .ok (t.token, some t, 0)
    else acquire_azure_token clientId customScope hasClientSecret fetch
  | none => acquire_azure_token clientId customScope hasClientSecret fetch

/-- Decoded JWT payload as seen by `_validate_jwt_token`: only the `exp`
claim is inspected. -/
structure JwtPayload where
  exp : Option Int
deriving DecidableEq, Repr

/-- `AuthHandler._validate_jwt_token` (lines 336-384) over a decode
oracle standing for `jwt.decode(..., verify_signature=False)`: a decode
failure (`jwt.DecodeError` with message `e`) raises
`OSMCPAuthError("Invalid JWT token format: " ++ e)`; an `exp` claim in
the past raises `OSMCPAuthError("Token has expired")`; otherwise the
validation passes, returning whether the under-5-minutes warning was
logged. -/
def validate_jwt_token (decode : String → Except String JwtPayload)
    (now : Int) (token : String) : Except String Bool :=
  match decode token with
  | .error e => .error ("Invalid JWT token format: " ++ e)
  | .ok payload =>
    match payload.exp with
    | none => .ok false
    | some exp =>
      if now > exp then .error "Token has expired"
      else .ok (decide (exp - now < 300))

/-- `AuthHandler._get_user_token` (lines 318-334): requires the env
variable to be truthy, validates the JWT, and returns the raw token
verbatim. -/
def get_user_token (userToken : Option String)
    (decode : String → Except String JwtPayload) (now : Int) :
    Except String String :=
  if envSet userToken then
    let token := userToken.getD ""
    match validate_jwt_token decode now token with
    | .error e => .error e
    | .ok _ => .ok token
  else
    .error "USER_TOKEN mode but OSDU_MCP_USER_TOKEN not set"

/-- What the try body of `_initialize_aws_credential` raises: nothing
(identity confirmed), `botocore.exceptions.ProfileNotFound`,
`botocore.exceptions.NoCredentialsError` (also raised explicitly when
`get_credentials()` returns `None`), `ImportError`, or any other
exception — e.g. a `botocore.exceptions.ClientError` raised by the
`sts.get_caller_identity()` identity-confirmation call when credentials
are present but invalid or expired. -/
inductive AwsInitOutcome
  | success
  | profileNotFound (msg : String)
  | noCredentials
  | importError
  | otherException (msg : String)
deriving DecidableEq, Repr

/-- What the try body of `_initialize_gcp_credential` raises: nothing,
`google.auth.exceptions.DefaultCredentialsError`, `ImportError`, or any
other exception. -/
inductive GcpInitOutcome
  | success
  | defaultCredentialsError
  | importError
  | otherException (msg : String)
deriving DecidableEq, Repr

/-- Result of a credential-backend constructor: success, an
`OSMCPAuthError` with remediation text, or an exception of another type
propagating uncaught out of construction. -/
inductive InitResult
  | ok
  | authError (msg : String)
  | uncaught (msg : String)
deriving DecidableEq, Repr

/-- Is the result a re-raised `OSMCPAuthError`? -/
def isAuthError : InitResult → Bool
  | InitResult.authError _ => true
  | _ => false

/-- The `NoCredentialsError` remediation message of
`_initialize_aws_credential`. -/
def awsNoCredentialsMessage : String :=
  "AWS credentials not found. " ++
  "Set up authentication using one of these methods:\n\n" ++
  "  AWS SSO:\n" ++
  "    aws sso login --profile <profile-name>\n" ++
  "    export AWS_PROFILE=<profile-name>\n\n" ++
  "  Access Keys:\n" ++
  "    export AWS_ACCESS_KEY_ID=...\n" ++
  "    export AWS_SECRET_ACCESS_KEY=...\n\n" ++
  "  For more info: https://docs.aws.amazon.com/cli/latest/userguide/cli-configure-quickstart.html"

/-- The `DefaultCredentialsError` remediation message of
`_initialize_gcp_credential`. -/
def gcpNoCredentialsMessage : String :=
  "GCP Application Default Credentials not found. " ++
  "Set up authentication using one of these methods:\n\n" ++
  "  Local Development:\n" ++
  "    gcloud auth application-default login\n\n" ++
  "  Service Account Key:\n" ++
  "    export GOOGLE_APPLICATION_CREDENTIALS=/path/to/key.json\n\n" ++
  "  For more info: https://cloud.google.com/docs/authentication/provide-credentials-adc"

/-- `AuthHandler._initialize_aws_credential` (lines 199-252): the except
clauses catch exactly `ProfileNotFound`, `NoCredentialsError` and
`ImportError`, re-raising each as `OSMCPAuthError`; an exception of any
other type is not caught and escapes. -/
def init_aws_credential (outcome : AwsInitOutcome) : InitResult :=
  match outcome with
  | .success => .ok
  | .profileNotFound m =>
    .authError ("AWS profile not found: " ++ m ++ ". " ++
      "Check AWS_PROFILE environment variable or ~/.aws/config")
  | .noCredentials => .authError awsNoCredentialsMessage
  | .importError =>
    .authError "boto3 library not installed. Install with: pip install boto3"
  | .otherException m => .uncaught m

/-- `AuthHandler._initialize_gcp_credential` (lines 254-295): the except
clauses catch exactly `DefaultCredentialsError` and `ImportError`; an
exception of any other type is not caught and escapes. -/
def init_gcp_credential (outcome : GcpInitOutcome) : InitResult :=
  match outcome with
  | .success => .ok
  | .defaultCredentialsError => .authError gcpNoCredentialsMessage
  | .importError =>
    .authError ("google-auth library not installed. " ++
      "Install with: pip install google-auth")
  | .otherException m => .uncaught m

/-! ## Helper lemmas -/

theorem dictGet_dictSet_self (d : List (String × String)) (k v : String) :
    dictGet (dictSet d k v) k = some v := by
  induction d with
  | nil => simp [dictSet, dictGet]
  | cons p rest ih =>
    obtain ⟨k', v'⟩ := p
    by_cases h : k' = k
    · simp [dictSet, dictGet, h]
    · simp [dictSet, dictGet, h, ih]

theorem dictGet_dictSet_other (d : List (String × String)) (k v k2 : String)
    (h : k2 ≠ k) : dictGet (dictSet d k v) k2 = dictGet d k2 := by
  induction d with
  | nil => simp [dictSet, dictGet, Ne.symm h]
  | cons p rest ih =>
    obtain ⟨k', v'⟩ := p
    by_cases hk : k' = k
    · subst hk
      simp [dictSet, dictGet, Ne.symm h]
    · by_cases h2 : k' = k2
      · simp [dictSet, dictGet, hk, h2, h]
      · simp [dictSet, dictGet, hk, h2, ih]

theorem setupHeaders_auth (callerHeaders : List (String × String))
    (token dataPartition : String) :
    dictGet (setupHeaders callerHeaders token dataPartition) "Authorization" =
      some ("Bearer " ++ token) := by
  unfold setupHeaders
  rw [dictGet_dictSet_other _ _ _ _ (by decide),
    dictGet_dictSet_other _ _ _ _ (by decide), dictGet_dictSet_self]

theorem setupHeaders_data_partition (callerHeaders : List (String × String))
    (token dataPartition : String) :
    dictGet (setupHeaders callerHeaders token dataPartition) "data-partition-id" =
      some dataPartition := by
  unfold setupHeaders
  rw [dictGet_dictSet_other _ _ _ _ (by decide), dictGet_dictSet_self]

theorem setupHeaders_content_type (callerHeaders : List (String × String))
    (token dataPartition : String) :
    dictGet (setupHeaders callerHeaders token dataPartition) "Content-Type" =
      some "application/json" := by
  unfold setupHeaders
  rw [dictGet_dictSet_self]

theorem setupHeaders_preserves (callerHeaders : List (String × String))
    (token dataPartition k : String) (h1 : k ≠ "Authorization")
    (h2 : k ≠ "data-partition-id") (h3 : k ≠ "Content-Type") :
    dictGet (setupHeaders callerHeaders token dataPartition) k =
      dictGet callerHeaders k := by
  unfold setupHeaders
  rw [dictGet_dictSet_other _ _ _ _ h3, dictGet_dictSet_other _ _ _ _ h2,
    dictGet_dictSet_other _ _ _ _ h1]

theorem runAttempts_events (behavior : Nat → AttemptOutcome)
    (headers : List (String × String)) (maxRetries baseDelay : Nat) :
    ∀ (fuel attempt : Nat) (ev : Event),
      ev ∈ (runAttempts behavior headers maxRetries baseDelay attempt fuel).2 →
      ev = Event.attempt headers ∨ ∃ d, ev = Event.sleep d := by
  intro fuel
  induction fuel with
  | zero =>
    intro attempt ev h
    simp [runAttempts] at h
  | succ n ih =>
    intro attempt ev h
    rw [runAttempts] at h
    cases hb : behavior attempt with
    | response status text isJson =>
      rw [hb] at h
      by_cases hs : status ≥ 400
      · simp [hs] at h
        exact Or.inl h
      · by_cases hj : isJson = true
        · simp [hs, hj] at h
          exact Or.inl h
        · simp [hs, hj] at h
          exact Or.inl h
    | clientError msg =>
      rw [hb] at h
      by_cases hl : attempt = maxRetries - 1
      · simp [hl] at h
        exact Or.inl h
      · simp only [hl, if_false, List.mem_cons] at h
        rcases h with h | h | h
        · exact Or.inl h
        · exact Or.inr ⟨_, h⟩
        · exact ih (attempt + 1) ev h
    | otherError msg =>
      rw [hb] at h
      simp at h
      exact Or.inl h

theorem make_request_events (behavior : Nat → AttemptOutcome)
    (token dataPartition : String) (callerHeaders : List (String × String))
    (ev : Event)
    (h : ev ∈ (make_request behavior token dataPartition callerHeaders).2) :
    ev = Event.getToken ∨
      ev = Event.attempt (setupHeaders callerHeaders token dataPartition) ∨
      ∃ d, ev = Event.sleep d := by
  simp only [make_request, List.mem_cons] at h
  rcases h with h | h
  · exact Or.inl h
  · rcases runAttempts_events behavior _ 3 1 3 0 ev h with h' | h'
    · exact Or.inr (Or.inl h')
    · exact Or.inr (Or.inr h')

theorem runAttempts_no_getToken (behavior : Nat → AttemptOutcome)
    (headers : List (String × String)) (maxRetries baseDelay fuel attempt : Nat) :
    (runAttempts behavior headers maxRetries baseDelay attempt fuel).2.countP
      isGetToken = 0 := by
  rw [List.countP_eq_zero]
  intro ev hev
  rcases runAttempts_events behavior headers maxRetries baseDelay fuel attempt ev hev
    with h | ⟨d, h⟩ <;> subst h <;> simp [isGetToken]

/-! ## Claim theorems -/

/-- Claim C7: for every request and every caller-supplied headers map,
the actually-sent Authorization header is "Bearer " plus the provider
token, the data-partition-id header is the configured partition, and
Content-Type is application/json, independently of caller-supplied
values for those keys; every other caller-supplied header is preserved
unchanged; and every attempt of the request sends exactly these
headers. -/
theorem request_core_headers :
    ∀ (callerHeaders : List (String × String)) (token dataPartition : String),
      dictGet (setupHeaders callerHeaders token dataPartition) "Authorization" =
        some ("Bearer " ++ token) ∧
      dictGet (setupHeaders callerHeaders token dataPartition) "data-partition-id" =
        some dataPartition ∧
      dictGet (setupHeaders callerHeaders token dataPartition) "Content-Type" =
        some "application/json" ∧
      (∀ k, k ≠ "Authorization" → k ≠ "data-partition-id" → k ≠ "Content-Type" →
        dictGet (setupHeaders callerHeaders token dataPartition) k =
          dictGet callerHeaders k) ∧
      (∀ (behavior : Nat → AttemptOutcome) (h : List (String × String)),
        Event.attempt h ∈ (make_request behavior token dataPartition callerHeaders).2 →
        h = setupHeaders callerHeaders token dataPartition) := by
  intro callerHeaders token dataPartition
  refine ⟨setupHeaders_auth _ _ _, setupHeaders_data_partition _ _ _,
    setupHeaders_content_type _ _ _,
    fun k h1 h2 h3 => setupHeaders_preserves _ _ _ _ h1 h2 h3,
    fun behavior h hmem => ?_⟩
  rcases make_request_events behavior token dataPartition callerHeaders _ hmem with
    h' | h' | ⟨d, h'⟩
  · exact absurd h' (by simp)
  · exact (Event.attempt.injEq _ _).mp h'.symm |>.symm
  · exact absurd h' (by simp)

/-- Witness for C7 at a concrete request: a caller-supplied
Authorization value is overridden while a custom header is preserved,
and the headers actually sent on an attempt are the core ones. -/
theorem request_core_headers_witness :
    dictGet (setupHeaders [("Authorization", "evil"), ("X-Custom", "v")]
      "tok" "part") "Authorization" = some "Bearer tok" ∧
    dictGet (setupHeaders [("Authorization", "evil"), ("X-Custom", "v")]
      "tok" "part") "X-Custom" = some "v" ∧
    [("Authorization", "Bearer tok"), ("data-partition-id", "part"),
      ("Content-Type", "application/json")] =
      setupHeaders [] "tok" "part" := by
  refine ⟨(request_core_headers _ "tok" "part").1,
    ((request_core_headers [("Authorization", "evil"), ("X-Custom", "v")]
      "tok" "part").2.2.2.1 "X-Custom" (by decide) (by decide) (by decide)).trans
      (by decide),
    (request_core_headers [] "tok" "part").2.2.2.2
      (fun _ => AttemptOutcome.clientError "reset")
      [("Authorization", "Bearer tok"), ("data-partition-id", "part"),
        ("Content-Type", "application/json")] (by decide)⟩

/-- Claim C9: within one request the token is acquired from the
credential provider exactly once, before the first attempt, and every
attempt (including retries after backoff) sends the identical
Authorization header derived from that token. -/
theorem token_single_acquisition :
    ∀ (behavior : Nat → AttemptOutcome) (token dataPartition : String)
      (callerHeaders : List (String × String)),
      (make_request behavior token dataPartition callerHeaders).2.head? =
        some Event.getToken ∧
      getTokenCount (make_request behavior token dataPartition callerHeaders).2 = 1 ∧
      (∀ h, Event.attempt h ∈
          (make_request behavior token dataPartition callerHeaders).2 →
        dictGet h "Authorization" = some ("Bearer " ++ token)) := by
  intro behavior token dataPartition callerHeaders
  refine ⟨by simp [make_request], ?_, fun h hmem => ?_⟩
  · simp only [make_request, getTokenCount, List.countP_cons, isGetToken]
    rw [runAttempts_no_getToken]
    simp
  · rcases make_request_events behavior token dataPartition callerHeaders _ hmem with
      h' | h' | ⟨d, h'⟩
    · exact absurd h' (by simp)
    · rw [(Event.attempt.injEq _ _).mp h'.symm |>.symm]
      exact setupHeaders_auth _ _ _
    · exact absurd h' (by simp)

/-- Witness for C9 at a concrete always-failing request: the trace
starts with the single token acquisition and the attempt headers carry
the bearer token. -/
theorem token_single_acquisition_witness :
    (make_request (fun _ => AttemptOutcome.clientError "reset") "tok" "part"
      []).2.head? = some Event.getToken ∧
    getTokenCount (make_request (fun _ => AttemptOutcome.clientError "reset")
      "tok" "part" []).2 = 1 ∧
    dictGet (setupHeaders [] "tok" "part") "Authorization" =
      some "Bearer tok" := by
  refine ⟨(token_single_acquisition (fun _ => AttemptOutcome.clientError "reset")
      "tok" "part" []).1,
    (token_single_acquisition (fun _ => AttemptOutcome.clientError "reset")
      "tok" "part" []).2.1,
    (token_single_acquisition (fun _ => AttemptOutcome.clientError "reset")
      "tok" "part" []).2.2 (setupHeaders [] "tok" "part") (by decide)⟩

/-- Claim C1: credential-mode detection follows the declared priority:
a set OSDU_MCP_USER_TOKEN always yields USER_TOKEN regardless of every
other variable; and pairwise down the chain, explicit Azure variables
beat explicit AWS variables, which beat the explicit GCP
credentials-file variable, which beats AWS ambient discovery, which
beats GCP ambient discovery. -/
theorem detect_mode_priority :
    (∀ e : Env, envSet e.OSDU_MCP_USER_TOKEN = true →
      detect_authentication_mode e = .ok .USER_TOKEN) ∧
    (∀ e : Env, envSet e.OSDU_MCP_USER_TOKEN = false →
      (envSet e.AZURE_CLIENT_ID = true ∨ envSet e.AZURE_TENANT_ID = true) →
      detect_authentication_mode e = .ok .AZURE) ∧
    (∀ e : Env, envSet e.OSDU_MCP_USER_TOKEN = false →
      envSet e.AZURE_CLIENT_ID = false → envSet e.AZURE_TENANT_ID = false →
      (envSet e.AWS_ACCESS_KEY_ID = true ∨ envSet e.AWS_PROFILE = true) →
      detect_authentication_mode e = .ok .AWS) ∧
    (∀ e : Env, envSet e.OSDU_MCP_USER_TOKEN = false →
      envSet e.AZURE_CLIENT_ID = false → envSet e.AZURE_TENANT_ID = false →
      envSet e.AWS_ACCESS_KEY_ID = false → envSet e.AWS_PROFILE = false →
      envSet e.GOOGLE_APPLICATION_CREDENTIALS = true →
      detect_authentication_mode e = .ok .GCP) ∧
    (∀ e : Env, envSet e.OSDU_MCP_USER_TOKEN = false →
      envSet e.AZURE_CLIENT_ID = false → envSet e.AZURE_TENANT_ID = false →
      envSet e.AWS_ACCESS_KEY_ID = false → envSet e.AWS_PROFILE = false →
      envSet e.GOOGLE_APPLICATION_CREDENTIALS = false →
      e.aws_auto_discovery = true →
      detect_authentication_mode e = .ok .AWS) ∧
    (∀ e : Env, envSet e.OSDU_MCP_USER_TOKEN = false →
      envSet e.AZURE_CLIENT_ID = false → envSet e.AZURE_TENANT_ID = false →
      envSet e.AWS_ACCESS_KEY_ID = false → envSet e.AWS_PROFILE = false →
      envSet e.GOOGLE_APPLICATION_CREDENTIALS = false →
      e.aws_auto_discovery = false → e.gcp_auto_discovery = true →
      detect_authentication_mode e = .ok .GCP) := by
  refine ⟨?_, ?_, ?_, ?_, ?_, ?_⟩
  · intro e h1
    simp [detect_authentication_mode, h1]
  · intro e h1 h2
    rcases h2 with h2 | h2 <;> simp [detect_authentication_mode, h1, h2]
  · intro e h1 h2 h3 h4
    rcases h4 with h4 | h4 <;> simp [detect_authentication_mode, h1, h2, h3, h4]
  · intro e h1 h2 h3 h4 h5 h6
    simp [detect_authentication_mode, h1, h2, h3, h4, h5, h6]
  · intro e h1 h2 h3 h4 h5 h6 h7
    simp [detect_authentication_mode, h1, h2, h3, h4, h5, h6, h7]
  · intro e h1 h2 h3 h4 h5 h6 h7 h8
    simp [detect_authentication_mode, h1, h2, h3, h4, h5, h6, h7, h8]

/-- Witness for C1: each priority step exercised on a concrete
environment with every lower-priority source simultaneously present. -/
theorem detect_mode_priority_witness :
    detect_authentication_mode
      ⟨some "tok", some "cid", some "tid", some "ak", some "pr", some "gc",
        true, true⟩ = .ok .USER_TOKEN ∧
    detect_authentication_mode
      ⟨none, some "cid", none, some "ak", some "pr", some "gc", true, true⟩ =
      .ok .AZURE ∧
    detect_authentication_mode
      ⟨none, none, none, some "ak", none, some "gc", true, true⟩ = .ok .AWS ∧
    detect_authentication_mode
      ⟨none, none, none, none, none, some "gc", true, true⟩ = .ok .GCP ∧
    detect_authentication_mode
      ⟨none, none, none, none, none, none, true, true⟩ = .ok .AWS ∧
    detect_authentication_mode
      ⟨none, none, none, none, none, none, false, true⟩ = .ok .GCP := by
  exact ⟨detect_mode_priority.1 _ (by decide),
    detect_mode_priority.2.1 _ (by decide) (Or.inl (by decide)),
    detect_mode_priority.2.2.1 _ (by decide) (by decide) (by decide)
      (Or.inl (by decide)),
    detect_mode_priority.2.2.2.1 _ (by decide) (by decide) (by decide)
      (by decide) (by decide) (by decide),
    detect_mode_priority.2.2.2.2.1 _ (by decide) (by decide) (by decide)
      (by decide) (by decide) (by decide) (by decide),
    detect_mode_priority.2.2.2.2.2 _ (by decide) (by decide) (by decide)
      (by decide) (by decide) (by decide) (by decide) (by decide)⟩

/-- Claim C2: three consecutive connection failures give exactly 3
attempts separated by exactly 2 backoff sleeps of 1 s then 2 s and raise
`OSMCPConnectionError`; two connection failures followed by a success
return the success payload after the same 2 sleeps. -/
theorem retry_backoff_spec :
    ∀ (behavior : Nat → AttemptOutcome) (token dataPartition : String)
      (callerHeaders : List (String × String)) (m0 m1 m2 : String),
      (behavior 0 = .clientError m0 → behavior 1 = .clientError m1 →
        behavior 2 = .clientError m2 →
        make_request behavior token dataPartition callerHeaders =
          (.error (.connectionError ("Connection error: " ++ m2)),
            [Event.getToken,
             Event.attempt (setupHeaders callerHeaders token dataPartition),
             Event.sleep 1,
             Event.attempt (setupHeaders callerHeaders token dataPartition),
             Event.sleep 2,
             Event.attempt (setupHeaders callerHeaders token dataPartition)]) ∧
        sleepsOf (make_request behavior token dataPartition callerHeaders).2 =
          [1, 2] ∧
        attemptCount (make_request behavior token dataPartition callerHeaders).2 =
          3) ∧
      (∀ (s : Nat) (text : String), behavior 0 = .clientError m0 →
        behavior 1 = .clientError m1 → behavior 2 = .response s text true →
        s < 400 →
        make_request behavior token dataPartition callerHeaders =
          (.ok (.json text),
            [Event.getToken,
             Event.attempt (setupHeaders callerHeaders token dataPartition),
             Event.sleep 1,
             Event.attempt (setupHeaders callerHeaders token dataPartition),
             Event.sleep 2,
             Event.attempt (setupHeaders callerHeaders token dataPartition)]) ∧
        sleepsOf (make_request behavior token dataPartition callerHeaders).2 =
          [1, 2]) := by
  intro behavior token dataPartition callerHeaders m0 m1 m2
  constructor
  · intro h0 h1 h2
    have : make_request behavior token dataPartition callerHeaders =
        (.error (.connectionError ("Connection error: " ++ m2)),
          [Event.getToken,
           Event.attempt (setupHeaders callerHeaders token dataPartition),
           Event.sleep 1,
           Event.attempt (setupHeaders callerHeaders token dataPartition),
           Event.sleep 2,
           Event.attempt (setupHeaders callerHeaders token dataPartition)]) := by
      simp [make_request, runAttempts, h0, h1, h2]
    refine ⟨this, ?_, ?_⟩
    · rw [this]
      simp [sleepsOf]
    · rw [this]
      simp [attemptCount, isAttempt, List.countP_cons]
  · intro s text h0 h1 h2 hs
    have hlt : ¬ s ≥ 400 := by omega
    have : make_request behavior token dataPartition callerHeaders =
        (.ok (.json text),
          [Event.getToken,
           Event.attempt (setupHeaders callerHeaders token dataPartition),
           Event.sleep 1,
           Event.attempt (setupHeaders callerHeaders token dataPartition),
           Event.sleep 2,
           Event.attempt (setupHeaders callerHeaders token dataPartition)]) := by
      simp [make_request, runAttempts, h0, h1, h2, hlt]
    refine ⟨this, ?_⟩
    rw [this]
    simp [sleepsOf]

/-- Witness for C2 at concrete behaviors: all-failing, and
fail-fail-succeed. -/
theorem retry_backoff_spec_witness :
    make_request (fun _ => AttemptOutcome.clientError "reset") "tok" "part" [] =
      (.error (.connectionError "Connection error: reset"),
        [Event.getToken, Event.attempt (setupHeaders [] "tok" "part"),
         Event.sleep 1, Event.attempt (setupHeaders [] "tok" "part"),
         Event.sleep 2, Event.attempt (setupHeaders [] "tok" "part")]) ∧
    make_request
      (fun n => if n < 2 then AttemptOutcome.clientError "reset"
        else AttemptOutcome.response 200 "payload" true) "tok" "part" [] =
      (.ok (.json "payload"),
        [Event.getToken, Event.attempt (setupHeaders [] "tok" "part"),
         Event.sleep 1, Event.attempt (setupHeaders [] "tok" "part"),
         Event.sleep 2, Event.attempt (setupHeaders [] "tok" "part")]) := by
  refine ⟨((retry_backoff_spec (fun _ => AttemptOutcome.clientError "reset")
      "tok" "part" [] "reset" "reset" "reset").1 rfl rfl rfl).1, ?_⟩
  have h2 : (fun n => if n < 2 then AttemptOutcome.clientError "reset"
      else AttemptOutcome.response 200 "payload" true) 2 =
      AttemptOutcome.response 200 "payload" true := by decide
  exact ((retry_backoff_spec
      (fun n => if n < 2 then AttemptOutcome.clientError "reset"
        else AttemptOutcome.response 200 "payload" true)
      "tok" "part" [] "reset" "reset" "reset").2 200 "payload"
      (by decide) (by decide) h2 (by decide)).1

/-- Claim C3: any 4xx/5xx response on the first attempt raises
`OSMCPAPIError` carrying that status immediately, with zero sleeps and a
single attempt; and a second attempt is only ever made when the first
attempt failed with a connection-level `aiohttp.ClientError`. -/
theorem http_error_no_retry :
    (∀ (behavior : Nat → AttemptOutcome) (token dataPartition : String)
      (callerHeaders : List (String × String)) (s : Nat) (text : String)
      (isJson : Bool),
      400 ≤ s → behavior 0 = .response s text isJson →
      (make_request behavior token dataPartition callerHeaders).1 =
        .error (.apiError ("Request failed: " ++ text) (some s)) ∧
      sleepsOf (make_request behavior token dataPartition callerHeaders).2 = [] ∧
      attemptCount (make_request behavior token dataPartition callerHeaders).2 =
        1) ∧
    (∀ (behavior : Nat → AttemptOutcome) (token dataPartition : String)
      (callerHeaders : List (String × String)),
      2 ≤ attemptCount (make_request behavior token dataPartition callerHeaders).2 →
      ∃ m, behavior 0 = .clientError m) := by
  constructor
  · intro behavior token dataPartition callerHeaders s text isJson hs h0
    have : make_request behavior token dataPartition callerHeaders =
        (.error (.apiError ("Request failed: " ++ text) (some s)),
          [Event.getToken,
           Event.attempt (setupHeaders callerHeaders token dataPartition)]) := by
      simp [make_request, runAttempts, h0, hs]
    rw [this]
    refine ⟨rfl, by simp [sleepsOf], by simp [attemptCount, isAttempt]⟩
  · intro behavior token dataPartition callerHeaders hcount
    cases h0 : behavior 0 with
    | clientError m => exact ⟨m, rfl⟩
    | response s text isJson =>
      by_cases hs : s ≥ 400
      · have : make_request behavior token dataPartition callerHeaders =
            (.error (.apiError ("Request failed: " ++ text) (some s)),
              [Event.getToken,
               Event.attempt (setupHeaders callerHeaders token dataPartition)]) := by
          simp [make_request, runAttempts, h0, hs]
        rw [this] at hcount
        simp [attemptCount, isAttempt] at hcount
      · cases hj : isJson with
        | true =>
          have : make_request behavior token dataPartition callerHeaders =
              (.ok (.json text),
                [Event.getToken,
                 Event.attempt (setupHeaders callerHeaders token dataPartition)]) := by
            simp [make_request, runAttempts, h0, hs, hj]
          rw [this] at hcount
          simp [attemptCount, isAttempt] at hcount
        | false =>
          have : make_request behavior token dataPartition callerHeaders =
              (.ok (.wrapped text),
                [Event.getToken,
                 Event.attempt (setupHeaders callerHeaders token dataPartition)]) := by
            simp [make_request, runAttempts, h0, hs, hj]
          rw [this] at hcount
          simp [attemptCount, isAttempt] at hcount
    | otherError m =>
      have : make_request behavior token dataPartition callerHeaders =
          (.error (.apiError ("Unexpected error: " ++ m) none),
            [Event.getToken,
             Event.attempt (setupHeaders callerHeaders token dataPartition)]) := by
        simp [make_request, runAttempts, h0]
      rw [this] at hcount
      simp [attemptCount, isAttempt] at hcount

/-- Witness for C3: a single 400 response with a concrete body. -/
theorem http_error_no_retry_witness :
    (make_request (fun _ => AttemptOutcome.response 400 "bad request" false)
      "tok" "part" []).1 =
      .error (.apiError "Request failed: bad request" (some 400)) ∧
    sleepsOf (make_request
      (fun _ => AttemptOutcome.response 400 "bad request" false)
      "tok" "part" []).2 = [] ∧
    (∃ m, (fun _ => AttemptOutcome.clientError "reset") 0 =
      AttemptOutcome.clientError m) := by
  have h := http_error_no_retry.1
    (fun _ => AttemptOutcome.response 400 "bad request" false)
    "tok" "part" [] 400 "bad request" false (by decide) rfl
  have h2 := http_error_no_retry.2
    (fun _ => AttemptOutcome.clientError "reset") "tok" "part" [] (by decide)
  exact ⟨h.1, h.2.1, h2⟩

/-- Counterexample to C4: for a 400 response with body "boom", the
`OSMCPAPIError` message is "Request failed: boom", not the raw body
text — a prefix is added, so the message does not equal the body. -/
theorem api_error_message_cex :
    (make_request (fun _ => AttemptOutcome.response 400 "boom" false)
      "tok" "part" []).1 =
      .error (.apiError "Request failed: boom" (some 400)) ∧
    "Request failed: boom" ≠ "boom" := by
  constructor
  · rfl
  · decide

/-- Claim C4 amended: for every response with status >= 400, the raised
`OSMCPAPIError` carries the response status and the message
"Request failed: " followed by the response body text. -/
theorem api_error_message_amended :
    ∀ (behavior : Nat → AttemptOutcome) (token dataPartition : String)
      (callerHeaders : List (String × String)) (s : Nat) (text : String)
      (isJson : Bool),
      400 ≤ s → behavior 0 = .response s text isJson →
      (make_request behavior token dataPartition callerHeaders).1 =
        .error (.apiError ("Request failed: " ++ text) (some s)) := by
  intro behavior token dataPartition callerHeaders s text isJson hs h0
  simp [make_request, runAttempts, h0, hs]

/-- Witness for the amended C4 at a concrete 503 response. -/
theorem api_error_message_amended_witness :
    (make_request (fun _ => AttemptOutcome.response 503 "upstream down" true)
      "tok" "part" []).1 =
      .error (.apiError "Request failed: upstream down" (some 503)) := by
  exact api_error_message_amended
    (fun _ => AttemptOutcome.response 503 "upstream down" true)
    "tok" "part" [] 503 "upstream down" true (by decide) rfl

/-- Claim C5: in Azure mode, starting from an empty cache, a first call
fetches once and caches the token; a second call while the cached
expiry is more than the 5-minute margin away returns the cached token
with no fetch; a call after expiry-minus-margin has passed fetches
again and replaces the cache. -/
theorem azure_token_caching :
    ∀ (t1 t2 t3 : Int) (cid : String) (customScope : Option String)
      (hasSecret : Bool) (fetch fetch2 : String → FetchOutcome)
      (tok tok2 : AccessToken),
      cid.isEmpty = false →
      fetch (azureScope cid customScope) = .success tok →
      fetch2 (azureScope cid customScope) = .success tok2 →
      t2 < tok.expires_on - 300 →
      tok.expires_on - 300 ≤ t3 →
      get_azure_token none t1 (some cid) customScope hasSecret fetch =
        .ok (tok.token, some tok, 1) ∧
      get_azure_token (some tok) t2 (some cid) customScope hasSecret fetch =
        .ok (tok.token, some tok, 0) ∧
      get_azure_token (some tok) t3 (some cid) customScope hasSecret fetch2 =
        .ok (tok2.token, some tok2, 1) := by
  intro t1 t2 t3 cid customScope hasSecret fetch fetch2 tok tok2
  intro hcid hfetch hfetch2 ht2 ht3
  refine ⟨?_, ?_, ?_⟩
  · simp [get_azure_token, acquire_azure_token, envSet, hcid, hfetch]
  · simp [get_azure_token, is_azure_token_valid, ht2]
  · have hval : ¬ (t3 < tok.expires_on - 300) := by omega
    simp [get_azure_token, is_azure_token_valid, hval, acquire_azure_token,
      envSet, hcid, hfetch2]

/-- Witness for C5 at concrete times and tokens: fetch at 0, cache hit
at 100, refresh at 5000 against an expiry of 2000. -/
theorem azure_token_caching_witness :
    get_azure_token none 0 (some "cid") none false
      (fun _ => FetchOutcome.success ⟨"tokA", 2000⟩) =
      .ok ("tokA", some ⟨"tokA", 2000⟩, 1) ∧
    get_azure_token (some ⟨"tokA", 2000⟩) 100 (some "cid") none false
      (fun _ => FetchOutcome.success ⟨"tokA", 2000⟩) =
      .ok ("tokA", some ⟨"tokA", 2000⟩, 0) ∧
    get_azure_token (some ⟨"tokA", 2000⟩) 5000 (some "cid") none false
      (fun _ => FetchOutcome.success ⟨"tokB", 9000⟩) =
      .ok ("tokB", some ⟨"tokB", 9000⟩, 1) := by
  exact azure_token_caching 0 100 5000 "cid" none false
    (fun _ => FetchOutcome.success ⟨"tokA", 2000⟩)
    (fun _ => FetchOutcome.success ⟨"tokB", 9000⟩)
    ⟨"tokA", 2000⟩ ⟨"tokB", 9000⟩ (by decide) rfl rfl (by decide) (by decide)

/-- Claim C10: in Azure mode with no valid cached token and
AZURE_CLIENT_ID unset, get_access_token always raises; the specific
missing-AZURE_CLIENT_ID OSMCPAuthError raised inside the try block is
caught by the surrounding generic exception handler and replaced by the
generic configuration-error message. -/
theorem azure_missing_client_id :
    ∀ (cached : Option AccessToken) (now : Int)
      (clientId customScope : Option String) (hasSecret : Bool)
      (fetch : String → FetchOutcome),
      is_azure_token_valid cached now = false →
      envSet clientId = false →
      get_azure_token cached now clientId customScope hasSecret fetch =
        .error
          "Authentication configuration error. Please check your environment setup" ∧
      "Authentication configuration error. Please check your environment setup" ≠
        missingClientIdMessage := by
  intro cached now clientId customScope hasSecret fetch hval hcid
  have hacq : acquire_azure_token clientId customScope hasSecret fetch =
      .error (translate_generic_error missingClientIdMessage) := by
    simp [acquire_azure_token, hcid]
  have hgen : translate_generic_error missingClientIdMessage =
      "Authentication configuration error. Please check your environment setup" := by
    decide
  constructor
  · cases cached with
    | none => simp [get_azure_token, hacq, hgen]
    | some t => simp [get_azure_token, hval, hacq, hgen]
  · decide

/-- Witness for C10: empty cache and absent AZURE_CLIENT_ID. -/
theorem azure_missing_client_id_witness :
    get_azure_token none 0 none none false
      (fun _ => FetchOutcome.success ⟨"tokA", 2000⟩) =
      .error
        "Authentication configuration error. Please check your environment setup" := by
  exact (azure_missing_client_id none 0 none none false
    (fun _ => FetchOutcome.success ⟨"tokA", 2000⟩) rfl rfl).1

/-- Claim C6: in UserToken mode, get_access_token validates the token
on every call: a decoded expiry claim in the past raises
`OSMCPAuthError("Token has expired")` (which contains "expired"); a
token that fails JWT decoding raises
`OSMCPAuthError("Invalid JWT token format: " ++ e)`; a token whose
expiry is in the future but under 5 minutes away is returned verbatim,
with the validator reporting only the non-fatal warning. -/
theorem user_token_validation :
    (∀ (decode : String → Except String JwtPayload) (now : Int)
      (tok : String) (payload : JwtPayload) (e : Int),
      tok.isEmpty = false → decode tok = .ok payload →
      payload.exp = some e → e < now →
      get_user_token (some tok) decode now = .error "Token has expired" ∧
      strContains "Token has expired" "expired" = true) ∧
    (∀ (decode : String → Except String JwtPayload) (now : Int)
      (tok err : String),
      tok.isEmpty = false → decode tok = .error err →
      get_user_token (some tok) decode now =
        .error ("Invalid JWT token format: " ++ err)) ∧
    (∀ (decode : String → Except String JwtPayload) (now : Int)
      (tok : String) (payload : JwtPayload) (e : Int),
      tok.isEmpty = false → decode tok = .ok payload →
      payload.exp = some e → now < e → e - now < 300 →
      get_user_token (some tok) decode now = .ok tok ∧
      validate_jwt_token decode now tok = .ok true) := by
  refine ⟨?_, ?_, ?_⟩
  · intro decode now tok payload e htok hdec hexp hlt
    have hgt : now > e := hlt
    constructor
    · simp [get_user_token, envSet, htok, validate_jwt_token, hdec, hexp, hgt]
    · decide
  · intro decode now tok err htok hdec
    simp [get_user_token, envSet, htok, validate_jwt_token, hdec]
  · intro decode now tok payload e htok hdec hexp hfut hsoon
    have hngt : ¬ (now > e) := by omega
    constructor
    · simp [get_user_token, envSet, htok, validate_jwt_token, hdec, hexp, hngt]
    · simp [validate_jwt_token, hdec, hexp, hngt, hsoon]

/-- Witness for C6 at concrete tokens: an expired token at exp 100 and
now 200, an undecodable token, and a token expiring 100 s in the
future. -/
theorem user_token_validation_witness :
    get_user_token (some "expired.jwt.token")
      (fun _ => Except.ok ⟨some 100⟩) 200 = .error "Token has expired" ∧
    get_user_token (some "not-a-jwt")
      (fun _ => Except.error "Not enough segments") 200 =
      .error "Invalid JWT token format: Not enough segments" ∧
    get_user_token (some "soon.jwt.token")
      (fun _ => Except.ok ⟨some 300⟩) 200 = .ok "soon.jwt.token" := by
  exact ⟨(user_token_validation.1 (fun _ => Except.ok ⟨some 100⟩) 200
      "expired.jwt.token" ⟨some 100⟩ 100 (by decide) rfl rfl (by decide)).1,
    user_token_validation.2.1 (fun _ => Except.error "Not enough segments") 200
      "not-a-jwt" "Not enough segments" (by decide) rfl,
    (user_token_validation.2.2 (fun _ => Except.ok ⟨some 300⟩) 200
      "soon.jwt.token" ⟨some 300⟩ 300 (by decide) rfl rfl (by decide)
      (by decide)).1⟩

/-- Counterexample to C8: a `botocore` `ClientError` raised by the
`sts.get_caller_identity()` identity-confirmation call (credentials
present but expired) is not one of the caught exception types, so it
escapes construction uncaught instead of being re-raised as
`OSMCPAuthError`. -/
theorem init_uncaught_cex :
    init_aws_credential (.otherException
      "An error occurred (ExpiredToken) when calling the GetCallerIdentity operation") =
      .uncaught
        "An error occurred (ExpiredToken) when calling the GetCallerIdentity operation" ∧
    isAuthError (init_aws_credential (.otherException
      "An error occurred (ExpiredToken) when calling the GetCallerIdentity operation")) =
      false := by
  decide

/-- Claim C8 amended: failures of the enumerated exception types raised
during backend credential construction (ProfileNotFound,
NoCredentialsError, ImportError for AWS; DefaultCredentialsError,
ImportError for GCP) are caught and re-raised as `OSMCPAuthError`
carrying backend-specific remediation text, but an exception of any
other type — including a ClientError from the AWS identity-confirmation
call — escapes construction uncaught. -/
theorem init_error_translation_amended :
    (∀ m, init_aws_credential (.profileNotFound m) =
      .authError ("AWS profile not found: " ++ m ++ ". " ++
        "Check AWS_PROFILE environment variable or ~/.aws/config")) ∧
    init_aws_credential .noCredentials = .authError awsNoCredentialsMessage ∧
    init_aws_credential .importError =
      .authError "boto3 library not installed. Install with: pip install boto3" ∧
    init_gcp_credential .defaultCredentialsError =
      .authError gcpNoCredentialsMessage ∧
    init_gcp_credential .importError =
      .authError ("google-auth library not installed. " ++
        "Install with: pip install google-auth") ∧
    (∀ m, init_aws_credential (.otherException m) = .uncaught m) ∧
    (∀ m, init_gcp_credential (.otherException m) = .uncaught m) := by
  exact ⟨fun m => rfl, rfl, rfl, rfl, rfl, fun m => rfl, fun m => rfl⟩
